import Mathlib

/-!
Verification of the Virgilio monitoring system core against its specification.

The Python services are shallowly embedded: numeric metric values become
rationals, Python `None` becomes `Option.none`, timestamps become integer
seconds, and the stateful pipelines become explicit state-passing functions.
Each embedded definition is transcribed from the corresponding function in
the repository (file and symbol named in its doc comment).
-/

namespace Virgilio

/-! ### Python-style helpers (truthiness, joining, fixed-point formatting) -/

/-- Python truthiness of an optional string: `bool(None) = bool("") = False`. -/
def pyTruthyStr : Option String → Bool
  | none => false
  | some s => !s.isEmpty

/-- Python truthiness of an optional list: `bool(None) = bool([]) = False`. -/
def pyTruthyList : Option (List String) → Bool
  | none => false
  | some l => !l.isEmpty

/-- Python `lst or None`: an empty list collapses to `None`. -/
def pyOrNoneList (l : List String) : Option (List String) :=
  if l.isEmpty then none else some l

/-- Python `sep.join(parts)`. -/
def pyJoin (sep : String) : List String → String
  | [] => ""
  | [a] => a
  | a :: rest => a ++ sep ++ pyJoin sep rest

/-- Round `q * scale` to the nearest integer, ties to even — the rounding used
by Python's `round` builtin and fixed-point string formatting.  Computed with
integer arithmetic on the numerator and denominator so the kernel can
evaluate it. -/
def pyRoundHalfEven (q : ℚ) (scale : ℤ) : ℤ :=
  let N : ℤ := q.num * scale
  let D : ℤ := (q.den : ℤ)
  let f : ℤ := N.fdiv D
  let r2 : ℤ := 2 * (N - f * D)
  if r2 < D then f
  else if D < r2 then f + 1
  else if f % 2 = 0 then f else f + 1

/-- Scale a rational by an integer factor (`q * k`), built with `mkRat` to
stay kernel-evaluable. -/
def ratScale (q : ℚ) (k : ℤ) : ℚ :=
  mkRat (q.num * k) q.den

/-- Python `f"{q:.df}"` fixed-point formatting with `d` decimal places
(values in the repository are exact decimals, so decimal-level rounding
coincides with the float formatting the code performs). -/
def fmtFixed (decimals : Nat) (q : ℚ) : String :=
  let n := pyRoundHalfEven q ((10 : ℤ) ^ decimals)
  let sign := if n < 0 then "-" else ""
  let m := n.natAbs
  let base := (10 : Nat) ^ decimals
  let ip := m / base
  let fp := m % base
  if decimals = 0 then
    sign ++ toString ip
  else
    let fpStr := toString fp
    let padded := String.mk (List.replicate (decimals - fpStr.length) '0') ++ fpStr
    sign ++ toString ip ++ "." ++ padded

/-! ### Threshold evaluator — `backend/app/services/warnings.py` -/

/-- Embedding of `DEFAULT_CPU_TEMP = 80.0` -/
def DEFAULT_CPU_TEMP : ℚ := 80

/-- Embedding of `DEFAULT_RAM_PERCENT = 90.0` -/
def DEFAULT_RAM_PERCENT : ℚ := 90

/-- Embedding of `DEFAULT_DISK_PERCENT = 90.0` -/
def DEFAULT_DISK_PERCENT : ℚ := 90

/-- Embedding of `schemas/telegram.py: WarnThresholds`.  A `none` field models both a
missing value and a non-numeric one — the `isinstance` guard in
`_resolve_threshold` treats them identically. -/
structure WarnThresholds where
  cpu_temperature_c : Option ℚ
  ram_used_percent : Option ℚ
  disk_usage_percent : Option ℚ
  mounted_usage_percent : Option ℚ
deriving DecidableEq, Repr

/-- Embedding of `warnings.py: _resolve_threshold` -/
def _resolve_threshold (value : Option ℚ) (default : ℚ) : ℚ :=
  match value with
  | some v => v
  | none => default

/-- Embedding of `schemas/common.py: MountedVolume` as consumed by the evaluator:
a mount-point label and a used-percent reading, each possibly absent. -/
structure MountedVolume where
  mount_point : Option String
  used_percent : Option ℚ
deriving DecidableEq, Repr

/-- Embedding of `warnings.py: _mount_label` — `str(value)` or the fallback `"mount"`. -/
def _mount_label (entry : MountedVolume) : String :=
  entry.mount_point.getD "mount"

/-- Embedding of `schemas/common.py: CPULoad` — load averages, each possibly absent or
non-numeric. -/
structure CPULoad where
  one : Option ℚ := none
  five : Option ℚ := none
  fifteen : Option ℚ := none
deriving DecidableEq, Repr

/-- The snapshot payload fields the core services read
(`schemas/metrics.py: MetricSnapshotCreate`).  Numeric fields are `Option ℚ`
(`none` = missing or non-numeric); `mounted_usage = None` and `[]` behave
identically in every consumer, so both are the empty list. -/
structure MetricsPayload where
  reported_at : ℤ := 0
  cpu_temperature_c : Option ℚ := none
  ram_used_percent : Option ℚ := none
  disk_usage_percent : Option ℚ := none
  mounted_usage : List MountedVolume := []
  cpu_load : Option CPULoad := none
  uptime_seconds : Option ℤ := none
  warnings : Option (List String) := none
deriving DecidableEq, Repr

/-- The `isinstance(...) and value >= limit` guard-and-append pattern shared
by the CPU, RAM and disk rules of `detect_warnings`: emit the message when
the value is numeric and at or above the limit. -/
def _warn_if (value : Option ℚ) (limit : ℚ) (message : ℚ → String) : List String :=
  match value with
  | some v => if v ≥ limit then [message v] else []
  | none => []

/-- The per-volume rule of the `detect_warnings` mount loop. -/
def _mount_warn (limit : ℚ) (volume : MountedVolume) : Option String :=
  match volume.used_percent with
  | some percent =>
      if percent ≥ limit then
        some (_mount_label volume ++ " usage critical at " ++ fmtFixed 1 percent ++ "%")
      else none
  | none => none

/-- Embedding of `warnings.py: detect_warnings` — fixed order CPU temp, RAM, root disk,
then one entry per mounted volume in snapshot order. -/
def detect_warnings (payload : MetricsPayload) (thresholds : WarnThresholds) : List String :=
  let cpu_limit := _resolve_threshold thresholds.cpu_temperature_c DEFAULT_CPU_TEMP
  let ram_limit := _resolve_threshold thresholds.ram_used_percent DEFAULT_RAM_PERCENT
  let disk_limit := _resolve_threshold thresholds.disk_usage_percent DEFAULT_DISK_PERCENT
  let mount_limit := match thresholds.mounted_usage_percent with
    | some v => v
    | none => disk_limit
  _warn_if payload.cpu_temperature_c cpu_limit
      (fun temp => "High CPU temperature " ++ fmtFixed 1 temp ++ "°C") ++
    _warn_if payload.ram_used_percent ram_limit
      (fun ram => "High RAM usage " ++ fmtFixed 1 ram ++ "%") ++
    _warn_if payload.disk_usage_percent disk_limit
      (fun disk => "Disk usage critical at " ++ fmtFixed 1 disk ++ "%") ++
    payload.mounted_usage.filterMap (_mount_warn mount_limit)

/-! ### Metrics ingestion pipeline — `backend/app/services/backend_ingest.py` -/

/-- Embedding of `models/monitors.py: MonitoredBackend` — the fields the core services
touch. -/
structure MonitoredBackend where
  id : ℤ
  poll_interval_seconds : ℤ := 30
  is_active : Bool := true
  last_seen_at : Option ℤ := none
  last_warning : Option String := none
deriving DecidableEq, Repr

/-- Embedding of `models/monitors.py: MetricSnapshot` — the persisted row fields the core
services read. -/
structure MetricSnapshot where
  backend_id : ℤ
  reported_at : ℤ
  cpu_temperature_c : Option ℚ := none
  ram_used_percent : Option ℚ := none
  disk_usage_percent : Option ℚ := none
  mounted_usage : List MountedVolume := []
  cpu_load : Option CPULoad := none
  uptime_seconds : Option ℤ := none
  warnings : Option (List String) := none
deriving DecidableEq, Repr

/-- Embedding of `metrics_service.py: build_snapshot_model` — copy the payload fields into
a snapshot row for the given backend. -/
def build_snapshot_model (backend_id : ℤ) (payload : MetricsPayload) : MetricSnapshot :=
  { backend_id := backend_id
    reported_at := payload.reported_at
    cpu_temperature_c := payload.cpu_temperature_c
    ram_used_percent := payload.ram_used_percent
    disk_usage_percent := payload.disk_usage_percent
    mounted_usage := payload.mounted_usage
    cpu_load := payload.cpu_load
    uptime_seconds := payload.uptime_seconds
    warnings := payload.warnings }

/-- The error taxonomy `ingest_backend_metrics` can raise:
`MonitorClientError` (upstream unavailable), `MetricsPayloadError`
(payload missing the `metrics` structure). -/
inductive IngestError where
  | monitorClient
  | metricsPayload
deriving DecidableEq, Repr

/-- The persistent state `ingest_backend_metrics` mutates: the target row and
the snapshot table restricted to it. -/
structure IngestState where
  backend : MonitoredBackend
  snapshots : List MetricSnapshot
deriving DecidableEq, Repr

/-- Lines 46–49 of `backend_ingest.py`: when thresholds are configured,
recompute the payload's warnings (`warnings or None`). -/
def applyThresholds (payload : MetricsPayload) (warn_thresholds : Option WarnThresholds) :
    MetricsPayload :=
  match warn_thresholds with
  | some thresholds => { payload with warnings := pyOrNoneList (detect_warnings payload thresholds) }
  | none => payload

/-- Embedding of `backend_ingest.py: ingest_backend_metrics`, state-passing form.

The agent fetch is a parameter (`Except` mirrors `MonitorClientError` from
`monitor_client.fetch_metrics`); `.ok none` models a response whose
`metrics` member is missing or falsy.  Both `datetime.now` calls are `now`.
The returned `Bool` records whether `try_send_warning_notification` was
invoked.  On error the input state is returned untouched, mirroring that the
function raises before any mutation. -/
def ingest_backend_metrics
    (fetched : Except Unit (Option MetricsPayload))
    (warn_thresholds : Option WarnThresholds)
    (retention_window : ℤ) (now : ℤ)
    (st : IngestState) :
    IngestState × Except IngestError (MetricSnapshot × Bool) :=
  match fetched with
  | .error _ => (st, .error .monitorClient)
  | .ok none => (st, .error .metricsPayload)
  | .ok (some payload0) =>
      let payload := applyThresholds payload0 warn_thresholds
      let snapshot := build_snapshot_model st.backend.id payload
      let previous_warning_active := pyTruthyStr st.backend.last_warning
      let current_warning_active := pyTruthyList payload.warnings
      let backend' : MonitoredBackend :=
        { st.backend with
          last_seen_at := some now
          last_warning :=
            if pyTruthyList payload.warnings then
              some (pyJoin "; " (payload.warnings.getD []))
            else none }
      let cutoff := now - retention_window
      let kept := st.snapshots.filter (fun s =>
        !(decide (s.backend_id = st.backend.id) && decide (s.reported_at < cutoff)))
      let notified := current_warning_active && !previous_warning_active
      ({ backend := backend', snapshots := kept ++ [snapshot] }, .ok (snapshot, notified))

/-! ### Resilient wrapper — `backend_ingest.py: safe_ingest_backend_metrics` -/

/-- Python `str.lower()` (character-wise). -/
def pyLower (s : String) : String :=
  String.mk (s.data.map Char.toLower)

/-- Python `needle in haystack` on strings: substring containment. -/
def strContains (haystack needle : String) : Bool :=
  decide (needle.data <:+: haystack.data)

/-- The message test on line 86 of `backend_ingest.py`:
`"backend_version" in message or "unknown column" in message`, where
`message = str(exc.orig).lower()`. -/
def _schema_related (message : String) : Bool :=
  strContains (pyLower message) "backend_version" ||
    strContains (pyLower message) "unknown column"

/-- One attempted run of `ingest_backend_metrics` as observed by the wrapper:
either a snapshot, or the exception class it raised.  `operational` carries
the stringified error message the wrapper inspects. -/
inductive IngestOutcome where
  | ok (snapshot : MetricSnapshot)
  | operational (message : String)
  | monitorClient
  | metricsPayload
  | other
deriving DecidableEq, Repr

/-- Embedding of `backend_ingest.py: safe_ingest_backend_metrics`.

`first` is the outcome of the initial `ingest_backend_metrics` call and
`retry` the outcome of the second call, made only on the self-healing path;
`engine` models the truthiness of `session.get_bind()` and `migration`
whether `ensure_schema_compat_async` (and the rollback) completed without
raising.  Returns the result (`none` = "no snapshot produced") paired with
the number of times `ingest_backend_metrics` ran.  The function is total:
no exception propagates. -/
def safe_ingest_backend_metrics
    (first retry : IngestOutcome) (engine migration : Bool) :
    Option MetricSnapshot × Nat :=
  match first with
  | .ok snapshot => (some snapshot, 1)
  | .operational message =>
      if _schema_related message then
        if engine then
          if migration then
            match retry with
            | .ok snapshot => (some snapshot, 2)
            | _ => (none, 2)
          else (none, 1)
        else (none, 1)
      else (none, 1)
  | .monitorClient => (none, 1)
  | .metricsPayload => (none, 1)
  | .other => (none, 1)

/-! ### In-memory retention store — `monitor/app/storage.py: MetricsRepository` -/

/-- Embedding of `monitor/app/schemas.py: MetricPayload` as consumed by the repository:
pruning reads only the report timestamp (UTC seconds). -/
structure MonitorPayload where
  reported_at : ℤ
deriving DecidableEq, Repr

/-- The repository's state: the construction-time `max_entries` bound and the
deque contents in insertion order (oldest first). -/
structure MetricsRepository where
  max_entries : Nat
  items : List MonitorPayload
deriving DecidableEq, Repr

/-- Embedding of `storage.py: MetricsRepository._prune_locked`.  `cutoff` is
`now - settings.history_retention()`.  First while-loop: pop from the left
while the oldest entry is older than the cutoff; second while-loop: pop from
the left while more than `max_entries` remain (i.e. drop the excess from the
front). -/
def _prune_locked (cutoff : ℤ) (repo : MetricsRepository) : MetricsRepository :=
  let items1 := repo.items.dropWhile (fun p => decide (p.reported_at < cutoff))
  { repo with items := items1.drop (items1.length - repo.max_entries) }

/-- Embedding of `storage.py: MetricsRepository.record` — append a (deep-copied) snapshot
and prune under the same lock. -/
def record (cutoff : ℤ) (payload : MonitorPayload) (repo : MetricsRepository) :
    MetricsRepository :=
  _prune_locked cutoff { repo with items := repo.items ++ [payload] }

/-- Embedding of `storage.py: MetricsRepository.latest` — the newest entry, or `none`. -/
def latest (repo : MetricsRepository) : Option MonitorPayload :=
  repo.items.getLast?

/-- Embedding of `record` applied to each payload in order. -/
def recordMany (cutoff : ℤ) (repo : MetricsRepository) :
    List MonitorPayload → MetricsRepository
  | [] => repo
  | p :: ps => recordMany cutoff (record cutoff p repo) ps

/-! ### Polling scheduler — `backend/app/services/backend_poller.py` -/

/-- Embedding of `MIN_INTERVAL_SECONDS = 30` -/
def MIN_INTERVAL_SECONDS : ℤ := 30

/-- Embedding of `backend_poller.py: BackendSchedule` -/
structure BackendSchedule where
  backend_id : ℤ
  poll_interval : ℤ
  last_seen_at : Option ℤ
deriving DecidableEq, Repr

/-- The effective interval of line 96: `max(schedule.poll_interval,
MIN_INTERVAL_SECONDS)`. -/
def effectiveInterval (schedule : BackendSchedule) : ℤ :=
  max schedule.poll_interval MIN_INTERVAL_SECONDS

/-- Lines 97–108 of `backend_poller.py`: reconcile the due time from the
tracked `next_run` entry and the last-contact timestamp; `now` when neither
exists. -/
def nextDue (now : ℤ) (tracked : Option ℤ) (schedule : BackendSchedule) : ℤ :=
  let nd0 := tracked
  let nd1 : Option ℤ :=
    match schedule.last_seen_at with
    | some last_seen =>
        let expected := last_seen + effectiveInterval schedule
        match nd0 with
        | none => some expected
        | some nd => if expected > nd then some expected else some nd
    | none => nd0
  match nd1 with
  | some nd => nd
  | none => now

/-- Lines 110–115 of `backend_poller.py`: the value written back into
`_next_run` for one schedule.  `pollTime` is the `datetime.now()` taken
after the poll returns; `success` is the result of `_poll_backend`. -/
def tickEntry (now pollTime : ℤ) (success : Bool) (tracked : Option ℤ)
    (schedule : BackendSchedule) : ℤ :=
  let nd := nextDue now tracked schedule
  if now ≥ nd then
    pollTime + (if success then effectiveInterval schedule
                else min (effectiveInterval schedule) 60)
  else nd

/-- The `_next_run` map: backend id to tracked due time. -/
abbrev NextRunMap : Type := ℤ → Option ℤ

/-- Embedding of `backend_poller.py: BackendPoller._tick`.  `schedules` is the list of
active targets loaded by `_load_schedules`; stale entries are dropped first,
then every schedule's entry is recomputed in order.  `pollTime b` and
`success b` describe the poll of backend `b` (time of completion and whether
`safe_ingest_backend_metrics` produced a snapshot). -/
def tick (now : ℤ) (pollTime : ℤ → ℤ) (success : ℤ → Bool)
    (schedules : List BackendSchedule) (nextRun : NextRunMap) : NextRunMap :=
  let pruned : NextRunMap := fun b =>
    if schedules.any (fun s => s.backend_id == b) then nextRun b else none
  schedules.foldl
    (fun m s => fun b =>
      if b == s.backend_id then
        some (tickEntry now (pollTime s.backend_id) (success s.backend_id) (m s.backend_id) s)
      else m b)
    pruned

/-! ### Status tile engine — `backend/app/services/quick_status.py` -/

/-- Embedding of `_PERCENT_METRICS` -/
def _PERCENT_METRICS : List String :=
  ["disk_usage_percent", "ram_used_percent", "mount_used_percent"]

/-- Embedding of `_REVERSE_THRESHOLD_METRICS` -/
def _REVERSE_THRESHOLD_METRICS : List String :=
  ["last_restart"]

/-- Embedding of `_PING_METRICS` -/
def _PING_METRICS : List String :=
  ["ping_result", "ping_delay_ms"]

/-- Embedding of `models/monitors.py: QuickStatusItem` — a stored tile definition. -/
structure QuickStatusItem where
  id : ℤ
  backend_id : ℤ
  label : String
  metric_key : String
  mount_path : Option String := none
  warning_threshold : ℚ
  critical_threshold : ℚ
  ping_endpoint : Option String := none
  ping_interval_seconds : Option ℤ := none
  display_order : ℤ := 0
deriving DecidableEq, Repr

/-- Embedding of `quick_status.py: _extract_mount_used_percent` — `None` for a falsy mount
path, otherwise the used-percent of the first mount whose `mount_point`
equals the path exactly (`None` if that entry's value is non-numeric). -/
def _extract_mount_used_percent (snapshot : MetricSnapshot) (mount_path : Option String) :
    Option ℚ :=
  if !pyTruthyStr mount_path then none
  else
    match snapshot.mounted_usage.find? (fun entry =>
        entry.mount_point == some (mount_path.getD "")) with
    | some entry => entry.used_percent
    | none => none

/-- Embedding of `quick_status.py: _extract_uptime_hours` — uptime seconds over 3600. -/
def _extract_uptime_hours (snapshot : MetricSnapshot) : Option ℚ :=
  snapshot.uptime_seconds.map (fun u => mkRat u 3600)

/-- Embedding of `quick_status.py: _metric_value` — the per-selector extraction rule. -/
def _metric_value (snapshot : MetricSnapshot) (metric_key : String)
    (mount_path : Option String) : Option ℚ :=
  if metric_key = "disk_usage_percent" then snapshot.disk_usage_percent
  else if metric_key = "ram_used_percent" then snapshot.ram_used_percent
  else if metric_key = "cpu_temperature_c" then snapshot.cpu_temperature_c
  else if metric_key = "cpu_load_one" then snapshot.cpu_load.bind (fun l => l.one)
  else if metric_key = "cpu_load_five" then snapshot.cpu_load.bind (fun l => l.five)
  else if metric_key = "cpu_load_fifteen" then snapshot.cpu_load.bind (fun l => l.fifteen)
  else if metric_key = "mount_used_percent" then _extract_mount_used_percent snapshot mount_path
  else if metric_key = "last_restart" then _extract_uptime_hours snapshot
  else none

/-- Embedding of `quick_status.py: _format_uptime_hours` — compact `Xd Yh` / `Yh Zm` /
`Zm` rendering of an hour count (Python `divmod` is floor division). -/
def _format_uptime_hours (value : ℚ) : String :=
  let total_minutes := pyRoundHalfEven value 60
  let days := total_minutes.fdiv 1440
  let rem_minutes := total_minutes.fmod 1440
  let hours := rem_minutes.fdiv 60
  let minutes := rem_minutes.fmod 60
  if days > 0 then toString days ++ "d " ++ toString hours ++ "h"
  else if hours > 0 then
    if minutes ≠ 0 then toString hours ++ "h " ++ toString minutes ++ "m"
    else toString hours ++ "h"
  else toString minutes ++ "m"

/-- Embedding of `quick_status.py: _format_value` — the per-selector display string;
`"—"` when the value is absent. -/
def _format_value (metric_key : String) (value : Option ℚ) : String :=
  match value with
  | none => "—"
  | some v =>
      if metric_key ∈ _PERCENT_METRICS then fmtFixed 0 v ++ "%"
      else if metric_key = "cpu_temperature_c" then fmtFixed 1 v ++ "C"
      else if metric_key = "last_restart" then _format_uptime_hours v
      else if metric_key = "ping_delay_ms" then fmtFixed 0 v ++ "ms"
      else fmtFixed 2 v

/-- Embedding of `quick_status.py: _resolve_status` — `unknown` when the value is absent,
otherwise threshold comparison in the selector's direction
(`_REVERSE_THRESHOLD_METRICS` flip to lower-is-worse). -/
def _resolve_status (value : Option ℚ) (warning_threshold critical_threshold : ℚ)
    (metric_key : String) : String :=
  match value with
  | none => "unknown"
  | some v =>
      if metric_key ∈ _REVERSE_THRESHOLD_METRICS then
        if v ≤ critical_threshold then "critical"
        else if v ≤ warning_threshold then "warn"
        else "ok"
      else
        if v ≥ critical_threshold then "critical"
        else if v ≥ warning_threshold then "warn"
        else "ok"

/-- Embedding of `quick_status.py: PingCheckResult` — cached per tile. -/
structure PingCheckResult where
  checked_at : ℤ
  success : Bool
  latency_ms : Option ℚ
deriving DecidableEq, Repr

/-- The `_PING_CACHE` map: tile id to cached check. -/
abbrev PingCache : Type := ℤ → Option PingCheckResult

/-- Python `x or d` on an optional integer (`0` is falsy). -/
def pyOrIntD (v : Option ℤ) (d : ℤ) : ℤ :=
  match v with
  | some x => if x = 0 then d else x
  | none => d

/-- Embedding of `quick_status.py: _check_ping`.  `probe` is the outcome of
`ping3.ping` (latency in seconds on success; `none` for failure or a raised
exception).  Returns the result handed to the tile builder, the updated
cache, and whether a fresh probe ran. -/
def _check_ping (probe : Option ℚ) (now : ℤ) (cache : PingCache) (item : QuickStatusItem) :
    Option PingCheckResult × PingCache × Bool :=
  if !pyTruthyStr item.ping_endpoint then (none, cache, false)
  else
    let interval := max 5 (pyOrIntD item.ping_interval_seconds 60)
    let cachedHit : Option PingCheckResult :=
      match cache item.id with
      | some cached => if now - cached.checked_at < interval then some cached else none
      | none => none
    match cachedHit with
    | some cached => (some cached, cache, false)
    | none =>
        let success := probe.isSome
        let latency_ms := probe.map (fun r => ratScale r 1000)
        let result : PingCheckResult := ⟨now, success, latency_ms⟩
        (some result, fun b => if b == item.id then some result else cache b, true)

/-- One derived tile view (`schemas/quick_status.py: QuickStatusTileRead`,
the computed fields). -/
structure TileView where
  value : Option ℚ
  display_value : String
  status : String
  reported_at : Option ℤ
deriving DecidableEq, Repr

/-- Lines 205–246 of `quick_status.py: build_quick_status_tiles`, one item:
derive the tile view from the target's latest snapshot and, for ping
selectors, the `_check_ping` result. -/
def buildTile (item : QuickStatusItem) (snapshot : Option MetricSnapshot)
    (ping_result : Option PingCheckResult) : TileView :=
  let value := match snapshot with
    | some s => _metric_value s item.metric_key item.mount_path
    | none => none
  let status := _resolve_status value item.warning_threshold item.critical_threshold item.metric_key
  let display_value := _format_value item.metric_key value
  let reported_at := snapshot.map (fun s => s.reported_at)
  if item.metric_key ∈ _PING_METRICS then
    match ping_result with
    | none => ⟨none, "—", "unknown", none⟩
    | some r =>
        if item.metric_key = "ping_result" then
          ⟨some (if r.success then 1 else 0),
           if r.success then "OK" else "NOK",
           if r.success then "ok" else "critical",
           some r.checked_at⟩
        else
          match r.success, r.latency_ms with
          | true, some l =>
              ⟨some l, _format_value item.metric_key (some l),
               _resolve_status (some l) item.warning_threshold item.critical_threshold
                 item.metric_key,
               some r.checked_at⟩
          | _, _ => ⟨none, "timeout", "critical", some r.checked_at⟩
  else ⟨value, display_value, status, reported_at⟩

/-! ### Tile validation — `backend/app/schemas/quick_status.py` -/

/-- Embedding of `_REQUIRES_PING_ENDPOINT` -/
def _REQUIRES_PING_ENDPOINT : List String :=
  ["ping_result", "ping_delay_ms"]

/-- Embedding of `_LOWER_IS_WORSE` -/
def _LOWER_IS_WORSE : List String :=
  ["last_restart"]

/-- Embedding of `schemas/quick_status.py: QuickStatusItemBase` — the submitted tile
definition (field-level pydantic constraints assumed already satisfied). -/
structure QuickStatusItemBase where
  backend_id : ℤ
  label : String
  metric_key : String
  mount_path : Option String := none
  warning_threshold : ℚ
  critical_threshold : ℚ
  ping_endpoint : Option String := none
  ping_interval_seconds : ℤ := 60
  display_order : ℤ := 0
deriving DecidableEq, Repr

/-- Python `not (x or "").strip()`: true when the string is absent, empty,
or entirely whitespace (so stripping leaves nothing). -/
def pyBlank (o : Option String) : Bool :=
  match o with
  | none => true
  | some s => s.data.all Char.isWhitespace

/-- Embedding of `schemas/quick_status.py: QuickStatusItemBase.validate_item` — the
model-level validator run at creation and update time.  Returns the
normalized item or the `ValueError` message raised. -/
def validate_item (it : QuickStatusItemBase) : Except String QuickStatusItemBase :=
  if it.metric_key ∈ _REQUIRES_PING_ENDPOINT ∧ pyBlank it.ping_endpoint = true then
    .error "ping_endpoint is required for ping tiles"
  else
    let it1 := if it.metric_key ∈ _REQUIRES_PING_ENDPOINT then it
               else { it with ping_endpoint := none, ping_interval_seconds := 60 }
    if it.metric_key ≠ "ping_result" ∧ it.metric_key ∈ _LOWER_IS_WORSE ∧
        it.warning_threshold ≤ it.critical_threshold then
      .error "warning_threshold must be greater than critical_threshold"
    else if it.metric_key ≠ "ping_result" ∧ it.metric_key ∉ _LOWER_IS_WORSE ∧
        it.critical_threshold ≤ it.warning_threshold then
      .error "warning_threshold must be less than critical_threshold"
    else if it.metric_key = "mount_used_percent" ∧ pyBlank it.mount_path = true then
      .error "mount_path is required for mounted usage tiles"
    else if it.metric_key = "mount_used_percent" then .ok it1
    else .ok { it1 with mount_path := none }

/-- Whether `validate_item` raises. -/
def validateRejects (it : QuickStatusItemBase) : Bool :=
  match validate_item it with
  | .error _ => true
  | .ok _ => false

/-! ## Theorems -/

/-! ### Shared helper lemmas -/

lemma warn_if_eq_nil (o : Option ℚ) (lim : ℚ) (mk : ℚ → String) :
    _warn_if o lim mk = [] ↔ ∀ v, o = some v → v < lim := by
  cases o <;> simp [_warn_if, ite_eq_right_iff, not_le]

lemma mount_warn_eq_none (lim : ℚ) (m : MountedVolume) :
    _mount_warn lim m = none ↔ ∀ v, m.used_percent = some v → v < lim := by
  cases h : m.used_percent <;> simp [_mount_warn, ite_eq_right_iff, not_le, h]

/-- C2: the threshold evaluator fires each rule at `value ≥ limit` with the
80/90/90 defaults and the root-disk fallback for mounts, in the fixed order
CPU temp, RAM, root disk, then mounts in snapshot order; it returns `[]`
exactly when nothing triggers; and on the spec's concrete snapshot with
default thresholds it produces exactly the four expected strings. -/
theorem spec_C2 :
    (detect_warnings
        { cpu_temperature_c := some (mkRat 852 10), ram_used_percent := some 91,
          disk_usage_percent := some 95,
          mounted_usage := [⟨some "/data", some 90⟩, ⟨some "/srv", some 40⟩] }
        ⟨none, none, none, none⟩ =
      ["High CPU temperature 85.2°C", "High RAM usage 91.0%",
       "Disk usage critical at 95.0%", "/data usage critical at 90.0%"]) ∧
    (∀ p t, detect_warnings p t = [] ↔
      ((∀ v, p.cpu_temperature_c = some v →
          v < _resolve_threshold t.cpu_temperature_c DEFAULT_CPU_TEMP) ∧
       (∀ v, p.ram_used_percent = some v →
          v < _resolve_threshold t.ram_used_percent DEFAULT_RAM_PERCENT) ∧
       (∀ v, p.disk_usage_percent = some v →
          v < _resolve_threshold t.disk_usage_percent DEFAULT_DISK_PERCENT) ∧
       (∀ m ∈ p.mounted_usage, ∀ v, m.used_percent = some v →
          v < _resolve_threshold t.mounted_usage_percent
                (_resolve_threshold t.disk_usage_percent DEFAULT_DISK_PERCENT)))) ∧
    (∀ p t, t.mounted_usage_percent = none →
      detect_warnings p t =
        detect_warnings p
          ⟨t.cpu_temperature_c, t.ram_used_percent, t.disk_usage_percent,
           some (_resolve_threshold t.disk_usage_percent DEFAULT_DISK_PERCENT)⟩) := by
  refine ⟨by decide, ?_, ?_⟩
  · intro p t
    rcases ht : t.mounted_usage_percent with _ | mv <;>
      simp [detect_warnings, warn_if_eq_nil, mount_warn_eq_none, ht, _resolve_threshold]
  · intro p t h
    simp [detect_warnings, h, _resolve_threshold]

/-- Witness for C2: the evaluator really returns `[]` on an all-nominal
snapshot, and the mount fallback really rewrites the thresholds. -/
theorem spec_C2_witness :
    (detect_warnings
        { cpu_temperature_c := some 20, ram_used_percent := some 30,
          disk_usage_percent := some 40, mounted_usage := [⟨some "/a", some 10⟩] }
        ⟨none, none, none, none⟩ = []) ∧
    (detect_warnings
        { cpu_temperature_c := some (mkRat 852 10), ram_used_percent := some 91,
          disk_usage_percent := some 95,
          mounted_usage := [⟨some "/data", some 90⟩, ⟨some "/srv", some 40⟩] }
        ⟨none, none, none, none⟩ =
      detect_warnings
        { cpu_temperature_c := some (mkRat 852 10), ram_used_percent := some 91,
          disk_usage_percent := some 95,
          mounted_usage := [⟨some "/data", some 90⟩, ⟨some "/srv", some 40⟩] }
        ⟨none, none, none, some 90⟩) := by
  constructor
  · exact (spec_C2.2.1 _ _).mpr
      ⟨fun v h => by cases h; decide, fun v h => by cases h; decide,
       fun v h => by cases h; decide,
       fun m hm v hv => by
        simp only [List.mem_singleton] at hm
        subst hm; cases hv; decide⟩
  · exact spec_C2.2.2 _ ⟨none, none, none, none⟩ rfl

lemma resolve_status_higher (v w c : ℚ) (k : String)
    (hk : k ∉ _REVERSE_THRESHOLD_METRICS) (hwc : w < c) :
    (_resolve_status (some v) w c k = "critical" ↔ c ≤ v) ∧
    (_resolve_status (some v) w c k = "warn" ↔ w ≤ v ∧ v < c) ∧
    (_resolve_status (some v) w c k = "ok" ↔ v < w) := by
  simp only [_resolve_status, if_neg hk]
  rcases le_or_lt c v with h1 | h1
  · rw [if_pos h1]
    refine ⟨⟨fun _ => h1, fun _ => rfl⟩,
            ⟨fun h => absurd h (by decide), fun h => absurd h1 (not_le.mpr h.2)⟩,
            ⟨fun h => absurd h (by decide), fun h => absurd h1 (not_le.mpr (h.trans hwc))⟩⟩
  · rw [if_neg (not_le.mpr h1)]
    rcases le_or_lt w v with h2 | h2
    · rw [if_pos h2]
      refine ⟨⟨fun h => absurd h (by decide), fun h => absurd h1 (not_lt.mpr h)⟩,
              ⟨fun _ => ⟨h2, h1⟩, fun _ => rfl⟩,
              ⟨fun h => absurd h (by decide), fun h => absurd h2 (not_le.mpr h)⟩⟩
    · rw [if_neg (not_le.mpr h2)]
      refine ⟨⟨fun h => absurd h (by decide), fun h => absurd h1 (not_lt.mpr h)⟩,
              ⟨fun h => absurd h (by decide), fun h => absurd h2 (not_lt.mpr h.1)⟩,
              ⟨fun _ => h2, fun _ => rfl⟩⟩

lemma resolve_status_lower (v w c : ℚ) (hcw : c < w) :
    (_resolve_status (some v) w c "last_restart" = "critical" ↔ v ≤ c) ∧
    (_resolve_status (some v) w c "last_restart" = "warn" ↔ c < v ∧ v ≤ w) ∧
    (_resolve_status (some v) w c "last_restart" = "ok" ↔ w < v) := by
  simp only [_resolve_status, if_pos (show "last_restart" ∈ _REVERSE_THRESHOLD_METRICS by decide)]
  rcases le_or_lt v c with h1 | h1
  · rw [if_pos h1]
    refine ⟨⟨fun _ => h1, fun _ => rfl⟩,
            ⟨fun h => absurd h (by decide), fun h => absurd h1 (not_le.mpr h.1)⟩,
            ⟨fun h => absurd h (by decide), fun h => absurd h1 (not_le.mpr (hcw.trans h))⟩⟩
  · rw [if_neg (not_le.mpr h1)]
    rcases le_or_lt v w with h2 | h2
    · rw [if_pos h2]
      refine ⟨⟨fun h => absurd h (by decide), fun h => absurd h1 (not_lt.mpr h)⟩,
              ⟨fun _ => ⟨h1, h2⟩, fun _ => rfl⟩,
              ⟨fun h => absurd h (by decide), fun h => absurd h2 (not_le.mpr h)⟩⟩
    · rw [if_neg (not_le.mpr h2)]
      refine ⟨⟨fun h => absurd h (by decide), fun h => absurd h1 (not_lt.mpr h)⟩,
              ⟨fun h => absurd h (by decide), fun h => absurd h2 (not_lt.mpr h.2)⟩,
              ⟨fun _ => h2, fun _ => rfl⟩⟩

/-- C6: tile status resolution — `unknown` (displayed `"—"`) when the value
is absent; for higher-is-worse selectors with a well-ordered threshold pair
(`warning < critical`) the status is `critical` iff `value ≥ critical`,
`warn` iff `warning ≤ value < critical`, `ok` otherwise; for the
lower-is-worse selector `last_restart` (with `critical < warning`) the
comparisons flip.  A `mount_used_percent` tile for `/data` with thresholds
80/95 over a latest snapshot carrying mount `/data = 92.0` resolves to
status `warn` with display `92%`. -/
theorem spec_C6 :
    (∀ w c k, _resolve_status none w c k = "unknown") ∧
    (∀ k, _format_value k none = "—") ∧
    (∀ v w c k, k ∉ _REVERSE_THRESHOLD_METRICS → w < c →
      ((_resolve_status (some v) w c k = "critical" ↔ c ≤ v) ∧
       (_resolve_status (some v) w c k = "warn" ↔ w ≤ v ∧ v < c) ∧
       (_resolve_status (some v) w c k = "ok" ↔ v < w))) ∧
    (∀ v w c, c < w →
      ((_resolve_status (some v) w c "last_restart" = "critical" ↔ v ≤ c) ∧
       (_resolve_status (some v) w c "last_restart" = "warn" ↔ c < v ∧ v ≤ w) ∧
       (_resolve_status (some v) w c "last_restart" = "ok" ↔ w < v))) ∧
    (_metric_value
        { backend_id := 1, reported_at := 0,
          mounted_usage := [⟨some "/data", some 92⟩] }
        "mount_used_percent" (some "/data") = some 92 ∧
     _resolve_status (some 92) 80 95 "mount_used_percent" = "warn" ∧
     _format_value "mount_used_percent" (some 92) = "92%") := by
  refine ⟨fun w c k => rfl, fun k => rfl,
          fun v w c k hk hwc => resolve_status_higher v w c k hk hwc,
          fun v w c hcw => resolve_status_lower v w c hcw,
          by decide, by decide, by decide⟩

/-- Witness for C6: the threshold-direction characterizations applied to the
concrete `/data = 92` tile (higher-is-worse, thresholds 80/95) and to a
`last_restart` tile (lower-is-worse, thresholds 48/24, value 30). -/
theorem spec_C6_witness :
    (_resolve_status (some 92) 80 95 "mount_used_percent" = "warn" ↔ (80 : ℚ) ≤ 92 ∧ (92 : ℚ) < 95) ∧
    (_resolve_status (some 30) 48 24 "last_restart" = "warn" ↔ (24 : ℚ) < 30 ∧ (30 : ℚ) ≤ 48) := by
  exact ⟨(spec_C6.2.2.1 92 80 95 "mount_used_percent" (by decide) (by decide)).2.1,
         (spec_C6.2.2.2.1 30 48 24 (by decide)).2.1⟩

/-- C8 counterexample: a `ping_result` tile whose threshold pair violates the
higher-is-worse ordering (`warning = critical = 5`) is accepted by
`validate_item`, although the claim requires every definition whose
threshold pair does not respect the selector's direction to be rejected
(the tile is not `last_restart` and not `mount_used_percent`, so no other
clause of the claim applies to it). -/
theorem spec_C8_counterexample :
    validateRejects
      { backend_id := 1, label := "gw", metric_key := "ping_result",
        warning_threshold := 5, critical_threshold := 5,
        ping_endpoint := some "10.0.0.1" } = false ∧
    ("ping_result" ∉ _LOWER_IS_WORSE ∧
      ¬ ((5 : ℚ) < 5) ∧ "ping_result" ≠ "mount_used_percent") := by
  decide

/-- C8 (amended): `validate_item` rejects exactly the definitions that
(a) use a ping selector with a blank ping endpoint, (b) use a selector other
than `ping_result` whose threshold pair does not respect the selector's
direction (`warning ≥ critical` for higher-is-worse selectors,
`warning ≤ critical` for `last_restart`) — the ordering check is skipped
for `ping_result` —, or (c) use the mount% selector without a mount path;
a mount path is required iff the selector is mount%. -/
theorem spec_C8 (it : QuickStatusItemBase) :
    validateRejects it = true ↔
      ((it.metric_key ∈ _REQUIRES_PING_ENDPOINT ∧ pyBlank it.ping_endpoint = true) ∨
       (it.metric_key ≠ "ping_result" ∧ it.metric_key ∈ _LOWER_IS_WORSE ∧
          it.warning_threshold ≤ it.critical_threshold) ∨
       (it.metric_key ≠ "ping_result" ∧ it.metric_key ∉ _LOWER_IS_WORSE ∧
          it.critical_threshold ≤ it.warning_threshold) ∨
       (it.metric_key = "mount_used_percent" ∧ pyBlank it.mount_path = true)) := by
  unfold validateRejects validate_item
  split_ifs with h1 h2 h3 h4 h5 <;> simp_all

/-- C9: the resilient wrapper never propagates — it is a total function into
`Option` — and: a successful first attempt returns its snapshot after one
ingest call; a schema-mismatch `OperationalError` (message mentioning
`backend_version` or `unknown column`) with a usable engine triggers the
self-healing migration and exactly one retry (the ingest call count is 2
precisely on that path), whose snapshot is returned on success and which
otherwise yields `none`; every other exception (upstream unavailable,
invalid payload, other persistence or unexpected errors) becomes the no-op
result `none` after a single call. -/
theorem spec_C9 (first retry : IngestOutcome) (engine migration : Bool) :
    ((safe_ingest_backend_metrics first retry engine migration).2 = 2 ↔
      ((∃ msg, first = .operational msg ∧ _schema_related msg = true) ∧
        engine = true ∧ migration = true)) ∧
    (∀ s, first = .ok s →
      safe_ingest_backend_metrics first retry engine migration = (some s, 1)) ∧
    (∀ msg, first = .operational msg → _schema_related msg = false →
      safe_ingest_backend_metrics first retry engine migration = (none, 1)) ∧
    (first = .monitorClient →
      safe_ingest_backend_metrics first retry engine migration = (none, 1)) ∧
    (first = .metricsPayload →
      safe_ingest_backend_metrics first retry engine migration = (none, 1)) ∧
    (first = .other →
      safe_ingest_backend_metrics first retry engine migration = (none, 1)) ∧
    (∀ msg s, first = .operational msg → _schema_related msg = true →
      engine = true → migration = true → retry = .ok s →
      safe_ingest_backend_metrics first retry engine migration = (some s, 2)) ∧
    (∀ msg, first = .operational msg → _schema_related msg = true →
      engine = true → migration = true → (∀ s, retry ≠ .ok s) →
      safe_ingest_backend_metrics first retry engine migration = (none, 2)) := by
  cases first <;>
    [skip;
     (cases hs : _schema_related ‹String› <;> cases engine <;> cases migration <;>
        cases retry <;> simp_all [safe_ingest_backend_metrics]);
     skip; skip; skip] <;>
    simp [safe_ingest_backend_metrics]

/-- Witness for C9: a first attempt failing with an `unknown column`
operational error, a usable engine, a successful migration and a successful
retry produce the retry's snapshot after exactly two ingest calls. -/
theorem spec_C9_witness :
    safe_ingest_backend_metrics (.operational "no such column: unknown column")
      (.ok { backend_id := 1, reported_at := 0 }) true true =
      (some { backend_id := 1, reported_at := 0 }, 2) :=
  (spec_C9 _ _ _ _).2.2.2.2.2.2.1 "no such column: unknown column"
    { backend_id := 1, reported_at := 0 } rfl (by decide) rfl rfl rfl

/-- C10: ingestion is atomic on early failure — when the agent fetch fails
(upstream unavailable) or the response lacks a truthy `metrics` member
(invalid payload), `ingest_backend_metrics` raises the corresponding error
with the persistent state untouched: no snapshot row is appended, no
pruning delete runs, and the target's `last_seen_at` and `last_warning`
keep their previous values. -/
theorem spec_C10 (wt : Option WarnThresholds) (retention now : ℤ) (st : IngestState) :
    (∀ e, ingest_backend_metrics (.error e) wt retention now st =
      (st, .error .monitorClient)) ∧
    (ingest_backend_metrics (.ok none) wt retention now st =
      (st, .error .metricsPayload)) :=
  ⟨fun _ => rfl, rfl⟩

lemma tick_foldl_apply_ne (now : ℤ) (pollTime : ℤ → ℤ) (success : ℤ → Bool)
    (xs : List BackendSchedule) (m : NextRunMap) (b : ℤ)
    (h : ∀ s ∈ xs, s.backend_id ≠ b) :
    (xs.foldl
      (fun m s => fun b' =>
        if b' == s.backend_id then
          some (tickEntry now (pollTime s.backend_id) (success s.backend_id) (m s.backend_id) s)
        else m b')
      m) b = m b := by
  induction xs generalizing m with
  | nil => rfl
  | cons x xs ih =>
      simp only [List.foldl_cons]
      rw [ih _ (fun s hs => h s (List.mem_cons_of_mem _ hs))]
      have hx : (b == x.backend_id) = false :=
        beq_eq_false_iff_ne.mpr (fun hb => h x (List.mem_cons_self x xs) hb.symm)
      simp [hx]

lemma tick_foldl_apply_mem (now : ℤ) (pollTime : ℤ → ℤ) (success : ℤ → Bool)
    (xs : List BackendSchedule) (m : NextRunMap) (s : BackendSchedule)
    (hmem : s ∈ xs) (hnd : (xs.map (fun t => t.backend_id)).Nodup) :
    (xs.foldl
      (fun m s => fun b' =>
        if b' == s.backend_id then
          some (tickEntry now (pollTime s.backend_id) (success s.backend_id) (m s.backend_id) s)
        else m b')
      m) s.backend_id =
      some (tickEntry now (pollTime s.backend_id) (success s.backend_id) (m s.backend_id) s) := by
  induction xs generalizing m with
  | nil => cases hmem
  | cons x xs ih =>
      rw [List.map_cons] at hnd
      have hnd' := List.nodup_cons.mp hnd
      rcases List.mem_cons.mp hmem with rfl | hmem'
      · simp only [List.foldl_cons]
        rw [tick_foldl_apply_ne]
        · simp
        · intro y hy hEq
          exact hnd'.1 (hEq ▸ List.mem_map_of_mem _ hy)
      · simp only [List.foldl_cons]
        rw [ih _ hmem' hnd'.2]
        have hne : (s.backend_id == x.backend_id) = false := by
          refine beq_eq_false_iff_ne.mpr (fun hb => ?_)
          exact hnd'.1 (hb ▸ List.mem_map_of_mem _ hmem')
        simp [hne]

lemma tick_apply_mem (now : ℤ) (pollTime : ℤ → ℤ) (success : ℤ → Bool)
    (schedules : List BackendSchedule) (nextRun : NextRunMap) (s : BackendSchedule)
    (hmem : s ∈ schedules) (hnd : (schedules.map (fun t => t.backend_id)).Nodup) :
    tick now pollTime success schedules nextRun s.backend_id =
      some (tickEntry now (pollTime s.backend_id) (success s.backend_id)
        (nextRun s.backend_id) s) := by
  simp only [tick]
  rw [tick_foldl_apply_mem now pollTime success schedules _ s hmem hnd]
  have hany : (schedules.any (fun t => t.backend_id == s.backend_id)) = true :=
    List.any_eq_true.mpr ⟨s, hmem, by simp⟩
  simp [hany]

/-- C4: on every tick the effective interval is
`max(poll_interval, MIN_INTERVAL_SECONDS)`; a due target polled
successfully has its next run scheduled at `poll time + effective interval`,
and a failed poll is rescheduled at `poll time + min(effective interval,
60)` — in particular a target with interval 600 whose poll fails is retried
60 seconds after the poll, not 600. -/
theorem spec_C4 (now : ℤ) (pollTime : ℤ → ℤ) (success : ℤ → Bool)
    (schedules : List BackendSchedule) (nextRun : NextRunMap) (s : BackendSchedule)
    (hnd : (schedules.map (fun t => t.backend_id)).Nodup) (hmem : s ∈ schedules)
    (hdue : nextDue now (nextRun s.backend_id) s ≤ now) :
    (effectiveInterval s = max s.poll_interval MIN_INTERVAL_SECONDS) ∧
    (tick now pollTime success schedules nextRun s.backend_id =
      some (pollTime s.backend_id +
        (if success s.backend_id then effectiveInterval s
         else min (effectiveInterval s) 60))) ∧
    (s.poll_interval = 600 → success s.backend_id = false →
      tick now pollTime success schedules nextRun s.backend_id =
        some (pollTime s.backend_id + 60)) := by
  have htick : tick now pollTime success schedules nextRun s.backend_id =
      some (pollTime s.backend_id +
        (if success s.backend_id then effectiveInterval s
         else min (effectiveInterval s) 60)) := by
    rw [tick_apply_mem now pollTime success schedules nextRun s hmem hnd]
    unfold tickEntry
    rw [if_pos hdue]
  refine ⟨rfl, htick, fun h600 hfail => ?_⟩
  rw [htick, hfail]
  have : effectiveInterval s = 600 := by
    simp [effectiveInterval, h600, MIN_INTERVAL_SECONDS]
  rw [this]
  norm_num

/-- Witness for C4: one active target with interval 600, no tracked state
and no last contact is due immediately; its failing poll at time 1000 is
rescheduled for 1060. -/
theorem spec_C4_witness :
    tick 1000 (fun _ => 1000) (fun _ => false) [⟨7, 600, none⟩] (fun _ => none) 7 =
      some 1060 := by
  have h := spec_C4 1000 (fun _ => 1000) (fun _ => false) [⟨7, 600, none⟩]
    (fun _ => none) ⟨7, 600, none⟩ (by decide) (by decide) (by decide)
  simpa using h.2.2 rfl rfl

/-- C5: per-tick reconciliation of the due time — with a last-contact
timestamp the candidate `last_seen + effective interval` replaces the
tracked `next_due_at` exactly when it is later (and is used outright when
nothing is tracked); without a last-contact timestamp the tracked value is
kept; with neither, the target is due immediately and is polled on this
tick; and tracked state for ids absent from the active schedule list is
removed. -/
theorem spec_C5 (now : ℤ) (pollTime : ℤ → ℤ) (success : ℤ → Bool)
    (schedules : List BackendSchedule) (nextRun : NextRunMap) :
    (∀ b, (∀ s ∈ schedules, s.backend_id ≠ b) →
      tick now pollTime success schedules nextRun b = none) ∧
    (∀ s : BackendSchedule, ∀ ls nd, s.last_seen_at = some ls →
      nd < ls + effectiveInterval s →
      nextDue now (some nd) s = ls + effectiveInterval s) ∧
    (∀ s : BackendSchedule, ∀ ls nd, s.last_seen_at = some ls →
      ls + effectiveInterval s ≤ nd →
      nextDue now (some nd) s = nd) ∧
    (∀ s : BackendSchedule, ∀ ls, s.last_seen_at = some ls →
      nextDue now none s = ls + effectiveInterval s) ∧
    (∀ s : BackendSchedule, ∀ nd, s.last_seen_at = none →
      nextDue now (some nd) s = nd) ∧
    (∀ s ∈ schedules, (schedules.map (fun t => t.backend_id)).Nodup →
      s.last_seen_at = none → nextRun s.backend_id = none →
      tick now pollTime success schedules nextRun s.backend_id =
        some (pollTime s.backend_id +
          (if success s.backend_id then effectiveInterval s
           else min (effectiveInterval s) 60))) := by
  refine ⟨?_, ?_, ?_, ?_, ?_, ?_⟩
  · intro b hb
    simp only [tick]
    rw [tick_foldl_apply_ne now pollTime success schedules _ b hb]
    have hany : (schedules.any (fun t => t.backend_id == b)) = false := by
      rw [List.any_eq_false]
      intro t ht
      simp [hb t ht]
    simp [hany]
  · intro s ls nd hls hlt
    simp [nextDue, hls, hlt]
  · intro s ls nd hls hle
    simp [nextDue, hls, not_lt.mpr hle]
  · intro s ls hls
    simp [nextDue, hls]
  · intro s nd hls
    simp [nextDue, hls]
  · intro s hmem hnd hls htracked
    rw [tick_apply_mem now pollTime success schedules nextRun s hmem hnd]
    unfold tickEntry
    rw [htracked]
    have hdue : nextDue now none s = now := by simp [nextDue, hls]
    rw [hdue, if_pos le_rfl]

/-- Witness for C5: with one active target (id 3, no last contact, no
tracked state) a tick at time 50 polls it immediately and schedules
`55 + 40`; an id absent from the schedule list is dropped from the map. -/
theorem spec_C5_witness :
    tick 50 (fun _ => 55) (fun _ => true) [⟨3, 40, none⟩] (fun _ => none) 9 = none ∧
    tick 50 (fun _ => 55) (fun _ => true) [⟨3, 40, none⟩] (fun _ => none) 3 = some 95 := by
  constructor
  · exact (spec_C5 50 (fun _ => 55) (fun _ => true) [⟨3, 40, none⟩] (fun _ => none)).1
      9 (by decide)
  · have h := (spec_C5 50 (fun _ => 55) (fun _ => true) [⟨3, 40, none⟩]
      (fun _ => none)).2.2.2.2.2 ⟨3, 40, none⟩ (by decide) (by decide) rfl rfl
    simpa using h

/-- C7: liveness checks — a cached result younger than the tile's effective
interval is reused with no fresh probe and the cache left untouched; a
cached result at least that old, or a missing one, triggers a fresh probe
whose result (`checked_at = now`, success = probe answered, latency in ms)
is cached under the tile id; a `ping_result` tile maps probe
success/failure to status `ok`/`critical` with display `OK`/`NOK`; a
`ping_delay_ms` tile shows the numeric latency (status from its thresholds)
on success and display `timeout` with forced `critical` status on
failure. -/
theorem spec_C7 (probe : Option ℚ) (now : ℤ) (cache : PingCache) (item : QuickStatusItem) :
    (∀ c, pyTruthyStr item.ping_endpoint = true → cache item.id = some c →
      now - c.checked_at < max 5 (pyOrIntD item.ping_interval_seconds 60) →
      _check_ping probe now cache item = (some c, cache, false)) ∧
    (∀ c, pyTruthyStr item.ping_endpoint = true → cache item.id = some c →
      max 5 (pyOrIntD item.ping_interval_seconds 60) ≤ now - c.checked_at →
      (_check_ping probe now cache item).2.2 = true ∧
      (_check_ping probe now cache item).1 =
        some ⟨now, probe.isSome, probe.map (fun r => ratScale r 1000)⟩ ∧
      (_check_ping probe now cache item).2.1 item.id =
        some ⟨now, probe.isSome, probe.map (fun r => ratScale r 1000)⟩) ∧
    (pyTruthyStr item.ping_endpoint = true → cache item.id = none →
      (_check_ping probe now cache item).2.2 = true ∧
      (_check_ping probe now cache item).2.1 item.id =
        some ⟨now, probe.isSome, probe.map (fun r => ratScale r 1000)⟩) ∧
    (∀ r snap, item.metric_key = "ping_result" →
      buildTile item snap (some r) =
        ⟨some (if r.success then 1 else 0), if r.success then "OK" else "NOK",
         if r.success then "ok" else "critical", some r.checked_at⟩) ∧
    (∀ r snap l, item.metric_key = "ping_delay_ms" → r.success = true →
      r.latency_ms = some l →
      buildTile item snap (some r) =
        ⟨some l, fmtFixed 0 l ++ "ms",
         _resolve_status (some l) item.warning_threshold item.critical_threshold
           "ping_delay_ms", some r.checked_at⟩) ∧
    (∀ r snap, item.metric_key = "ping_delay_ms" → r.success = false →
      buildTile item snap (some r) = ⟨none, "timeout", "critical", some r.checked_at⟩) := by
  refine ⟨?_, ?_, ?_, ?_, ?_, ?_⟩
  · intro c he hc hlt
    simp [_check_ping, he, hc, hlt]
  · intro c he hc hge
    have hlt : ¬(now - c.checked_at < max 5 (pyOrIntD item.ping_interval_seconds 60)) :=
      not_lt.mpr hge
    refine ⟨?_, ?_, ?_⟩ <;> simp [_check_ping, he, hc, hlt]
  · intro he hc
    refine ⟨?_, ?_⟩ <;> simp [_check_ping, he, hc]
  · intro r snap h
    simp [buildTile, h, _PING_METRICS]
  · intro r snap l h hs hl
    simp [buildTile, h, hs, hl, _PING_METRICS, _format_value, _PERCENT_METRICS]
  · intro r snap h hs
    cases hl : r.latency_ms <;> simp [buildTile, h, hs, hl, _PING_METRICS]

/-- Witness for C7: with a 60-second interval, a cache 3 seconds old is
reused verbatim with no probe, and a cache 120 seconds old triggers a fresh
probe; a successful `ping_result` probe renders `OK`/`ok`. -/
theorem spec_C7_witness :
    (_check_ping (some 5) 1000
        (fun b => if b == (1 : ℤ) then some ⟨997, true, some 5⟩ else none)
        ⟨1, 1, "gw", "ping_result", none, 1, 2, some "10.0.0.1", some 60, 0⟩ =
      (some ⟨997, true, some 5⟩,
       (fun b => if b == (1 : ℤ) then some ⟨997, true, some 5⟩ else none), false)) ∧
    ((_check_ping (some 5) 1000
        (fun b => if b == (1 : ℤ) then some ⟨880, true, some 5⟩ else none)
        ⟨1, 1, "gw", "ping_result", none, 1, 2, some "10.0.0.1", some 60, 0⟩).2.2 = true) ∧
    (buildTile ⟨1, 1, "gw", "ping_result", none, 1, 2, some "10.0.0.1", some 60, 0⟩ none
        (some ⟨1000, true, some 5⟩) = ⟨some 1, "OK", "ok", some 1000⟩) := by
  refine ⟨?_, ?_, ?_⟩
  · exact (spec_C7 (some 5) 1000 _ _).1 ⟨997, true, some 5⟩ (by decide) (by decide) (by decide)
  · exact ((spec_C7 (some 5) 1000 _ _).2.1 ⟨880, true, some 5⟩ (by decide) (by decide)
      (by decide)).1
  · exact ((spec_C7 (some 5) 1000 (fun _ => none) _).2.2.2.1 ⟨1000, true, some 5⟩ none rfl)

lemma dropWhile_fresh (cutoff : ℤ) (l : List MonitorPayload)
    (h : ∀ p ∈ l, cutoff ≤ p.reported_at) :
    l.dropWhile (fun p => decide (p.reported_at < cutoff)) = l := by
  cases l with
  | nil => rfl
  | cons a t =>
      simp [List.dropWhile_cons, not_lt.mpr (h a (List.mem_cons_self a t))]

lemma prune_locked_fresh (cutoff : ℤ) (repo : MetricsRepository)
    (hfresh : ∀ p ∈ repo.items, cutoff ≤ p.reported_at) :
    _prune_locked cutoff repo =
      { repo with items := repo.items.drop (repo.items.length - repo.max_entries) } := by
  unfold _prune_locked
  rw [dropWhile_fresh cutoff repo.items hfresh]

lemma lastN_append_lastN (m : Nat) (A B : List MonitorPayload) :
    ((A.drop (A.length - m)) ++ B).drop (((A.drop (A.length - m)) ++ B).length - m) =
      (A ++ B).drop ((A ++ B).length - m) := by
  have hk : A.length - m ≤ A.length := Nat.sub_le _ _
  rw [← List.drop_append_of_le_length hk, List.drop_drop]
  congr 1
  simp only [List.length_drop, List.length_append]
  omega

lemma recordMany_items (cutoff : ℤ) (maxE : Nat) (xs : List MonitorPayload) :
    ∀ ys : List MonitorPayload,
      (∀ p ∈ ys, cutoff ≤ p.reported_at) → (∀ p ∈ xs, cutoff ≤ p.reported_at) →
      ys.length ≤ maxE →
      recordMany cutoff ⟨maxE, ys⟩ xs =
        ⟨maxE, (ys ++ xs).drop ((ys ++ xs).length - maxE)⟩ := by
  induction xs with
  | nil =>
      intro ys hys _ hlen
      simp [recordMany, Nat.sub_eq_zero_of_le hlen]
  | cons x xs ih =>
      intro ys hys hxs hlen
      have hfresh1 : ∀ p ∈ ys ++ [x], cutoff ≤ p.reported_at := by
        intro p hp
        rcases List.mem_append.mp hp with h | h
        · exact hys p h
        · rw [List.mem_singleton] at h
          rw [h]
          exact hxs x (List.mem_cons_self x xs)
      have hrec : record cutoff x ⟨maxE, ys⟩ =
          ⟨maxE, (ys ++ [x]).drop ((ys ++ [x]).length - maxE)⟩ := by
        unfold record
        rw [prune_locked_fresh cutoff _ hfresh1]
      have hstep : recordMany cutoff ⟨maxE, ys⟩ (x :: xs) =
          recordMany cutoff (record cutoff x ⟨maxE, ys⟩) xs := rfl
      rw [hstep, hrec,
          ih _ (fun p hp => hfresh1 p (List.drop_subset _ _ hp))
            (fun p hp => hxs p (List.mem_cons_of_mem _ hp))
            (by simp [List.length_drop]; omega)]
      rw [lastN_append_lastN maxE (ys ++ [x]) xs]
      have harr : (ys ++ [x]) ++ xs = ys ++ x :: xs := by
        simp [List.append_assoc]
      rw [harr]

/-- C3: starting from an empty store, after `record` runs N times with
payloads all inside the age window and `prune` runs with the same cutoff,
the store holds exactly `min N max_entries` entries — the most recent ones,
i.e. the final suffix of the recorded sequence — all newer than the cutoff,
and the extra `prune` changes nothing; in general pruning removes from the
oldest end only (the result is a suffix of the previous contents) and never
leaves more than `max_entries` entries. -/
theorem spec_C3 (maxE : Nat) (cutoff : ℤ) (xs : List MonitorPayload)
    (hfresh : ∀ p ∈ xs, cutoff ≤ p.reported_at) :
    ((recordMany cutoff ⟨maxE, []⟩ xs).items.length = min xs.length maxE) ∧
    ((recordMany cutoff ⟨maxE, []⟩ xs).items = xs.drop (xs.length - maxE)) ∧
    (∀ p ∈ (recordMany cutoff ⟨maxE, []⟩ xs).items, cutoff ≤ p.reported_at) ∧
    (_prune_locked cutoff (recordMany cutoff ⟨maxE, []⟩ xs) =
      recordMany cutoff ⟨maxE, []⟩ xs) ∧
    (∀ repo : MetricsRepository, (_prune_locked cutoff repo).items <:+ repo.items ∧
      (_prune_locked cutoff repo).items.length ≤ repo.max_entries) := by
  have hall := recordMany_items cutoff maxE xs [] (by simp) hfresh (by simp)
  rw [List.nil_append] at hall
  have hitems : (recordMany cutoff ⟨maxE, []⟩ xs).items = xs.drop (xs.length - maxE) := by
    rw [hall]
  have hlen : (recordMany cutoff ⟨maxE, []⟩ xs).items.length = min xs.length maxE := by
    rw [hitems, List.length_drop]
    omega
  have hmax : (recordMany cutoff ⟨maxE, []⟩ xs).max_entries = maxE := by
    rw [hall]
  have hmem : ∀ p ∈ (recordMany cutoff ⟨maxE, []⟩ xs).items, cutoff ≤ p.reported_at := by
    intro p hp
    rw [hitems] at hp
    exact hfresh p (List.drop_subset _ _ hp)
  refine ⟨hlen, hitems, hmem, ?_, ?_⟩
  · rw [prune_locked_fresh cutoff _ hmem]
    have : (recordMany cutoff ⟨maxE, []⟩ xs).items.length -
        (recordMany cutoff ⟨maxE, []⟩ xs).max_entries = 0 := by
      rw [hlen, hmax]
      omega
    simp [this]
  · intro repo
    constructor
    · exact (List.drop_suffix _ _).trans (List.dropWhile_suffix _)
    · simp [_prune_locked, List.length_drop]
      omega

/-- Witness for C3: three rapid records into a store bounded at two entries
keep exactly the two most recent payloads. -/
theorem spec_C3_witness :
    (recordMany 5 ⟨2, []⟩ [⟨10⟩, ⟨11⟩, ⟨12⟩]).items = [⟨11⟩, ⟨12⟩] := by
  have h := spec_C3 2 5 [⟨10⟩, ⟨11⟩, ⟨12⟩] (by decide)
  simpa using h.2.1

/-- Witness for C8 (amended): a `disk_usage_percent` tile with
`warning = 90 ≥ critical = 80` is rejected, as the amended characterization
requires. -/
theorem spec_C8_witness :
    validateRejects
      { backend_id := 1, label := "d", metric_key := "disk_usage_percent",
        warning_threshold := 90, critical_threshold := 80 } = true :=
  (spec_C8 _).mpr (Or.inr (Or.inr (Or.inl ⟨by decide, by decide, by decide⟩)))

/-- Witness for C10: a concrete failed fetch leaves a concrete state
untouched and surfaces the upstream error. -/
theorem spec_C10_witness :
    ingest_backend_metrics (.error ()) none 86400 50 ⟨⟨1, 30, true, none, none⟩, []⟩ =
      (⟨⟨1, 30, true, none, none⟩, []⟩, .error .monitorClient) :=
  (spec_C10 none 86400 50 ⟨⟨1, 30, true, none, none⟩, []⟩).1 ()

lemma str_eq_empty_of_length {s : String} (h : s.length = 0) : s = "" := by
  cases s with
  | mk data =>
      cases data with
      | nil => rfl
      | cons c cs => simp [String.length] at h

lemma str_isEmpty_false_of_length {s : String} (h : s.length ≠ 0) : s.isEmpty = false := by
  rw [Bool.eq_false_iff]
  intro hE
  rw [(String.isEmpty_iff s).mp hE] at h
  exact h rfl

lemma str_append_isEmpty_false (a b : String) (h : a.isEmpty = false) :
    (a ++ b).isEmpty = false := by
  apply str_isEmpty_false_of_length
  rw [String.length_append]
  intro hsum
  have ha : a.length = 0 := by omega
  rw [str_eq_empty_of_length ha] at h
  exact absurd h (by decide)

lemma pyJoin_isEmpty_false (sep w : String) (ws : List String)
    (hw : w.isEmpty = false) : (pyJoin sep (w :: ws)).isEmpty = false := by
  cases ws with
  | nil => exact hw
  | cons b bs =>
      show ((w ++ sep) ++ pyJoin sep (b :: bs)).isEmpty = false
      exact str_append_isEmpty_false _ _ (str_append_isEmpty_false _ _ hw)

lemma mem_warn_if {o : Option ℚ} {lim : ℚ} {mk : ℚ → String} {w : String}
    (h : w ∈ _warn_if o lim mk) : ∃ v, w = mk v := by
  cases o with
  | none => cases h
  | some v =>
      simp only [_warn_if] at h
      by_cases hv : v ≥ lim
      · rw [if_pos hv, List.mem_singleton] at h
        exact ⟨v, h⟩
      · rw [if_neg hv] at h
        cases h

lemma mem_detect_ne_empty {p : MetricsPayload} {t : WarnThresholds} {w : String}
    (hmem : w ∈ detect_warnings p t) : w.isEmpty = false := by
  unfold detect_warnings at hmem
  rcases List.mem_append.mp hmem with hm | hm4
  · rcases List.mem_append.mp hm with hm' | hm3
    · rcases List.mem_append.mp hm' with hm1 | hm2
      · obtain ⟨v, rfl⟩ := mem_warn_if hm1
        apply str_isEmpty_false_of_length
        rw [String.length_append, String.length_append]
        have hc : ("High CPU temperature ").length = 21 := rfl
        omega
      · obtain ⟨v, rfl⟩ := mem_warn_if hm2
        apply str_isEmpty_false_of_length
        rw [String.length_append, String.length_append]
        have hc : ("High RAM usage ").length = 15 := rfl
        omega
    · obtain ⟨v, rfl⟩ := mem_warn_if hm3
      apply str_isEmpty_false_of_length
      rw [String.length_append, String.length_append]
      have hc : ("Disk usage critical at ").length = 23 := rfl
      omega
  · rw [List.mem_filterMap] at hm4
    obtain ⟨m, _, hw⟩ := hm4
    rcases hmu : m.used_percent with _ | v
    · exact absurd hw (by simp [_mount_warn, hmu])
    · simp only [_mount_warn, hmu] at hw
      split at hw
      · have hwe := (Option.some_inj.mp hw).symm
        subst hwe
        apply str_isEmpty_false_of_length
        rw [String.length_append, String.length_append, String.length_append]
        have hc : (" usage critical at ").length = 19 := rfl
        omega
      · cases hw

lemma ingest_ok_snd (p : MetricsPayload) (t : WarnThresholds) (r now : ℤ)
    (st : IngestState) :
    (ingest_backend_metrics (.ok (some p)) (some t) r now st).2 =
      .ok (build_snapshot_model st.backend.id (applyThresholds p (some t)),
           pyTruthyList (pyOrNoneList (detect_warnings p t)) &&
             !pyTruthyStr st.backend.last_warning) := rfl

lemma ingest_ok_last_warning (p : MetricsPayload) (t : WarnThresholds) (r now : ℤ)
    (st : IngestState) :
    (ingest_backend_metrics (.ok (some p)) (some t) r now st).1.backend.last_warning =
      (if pyTruthyList (pyOrNoneList (detect_warnings p t)) = true then
        some (pyJoin "; " ((pyOrNoneList (detect_warnings p t)).getD [])) else none) := rfl

lemma pair_eq_snd {A B : Type} (x : A × B) {b : B} (h : x.2 = b) : x = (x.1, b) := by
  rw [← h]

lemma ingest_notify_already_active (p : MetricsPayload) (t : WarnThresholds)
    (r now : ℤ) (st : IngestState)
    (h : pyTruthyStr st.backend.last_warning = true) :
    (ingest_backend_metrics (.ok (some p)) (some t) r now st).2 =
      .ok (build_snapshot_model st.backend.id (applyThresholds p (some t)), false) := by
  rw [ingest_ok_snd]
  simp [h]

lemma ingest_notify_no_warnings (p : MetricsPayload) (t : WarnThresholds)
    (r now : ℤ) (st : IngestState)
    (h : detect_warnings p t = []) :
    (ingest_backend_metrics (.ok (some p)) (some t) r now st).2 =
      .ok (build_snapshot_model st.backend.id (applyThresholds p (some t)), false) := by
  rw [ingest_ok_snd]
  simp [h, pyOrNoneList, pyTruthyList]

lemma ingest_notify_fire (p : MetricsPayload) (t : WarnThresholds)
    (r now : ℤ) (st : IngestState)
    (h0 : pyTruthyStr st.backend.last_warning = false)
    (h1 : detect_warnings p t ≠ []) :
    (ingest_backend_metrics (.ok (some p)) (some t) r now st).2 =
      .ok (build_snapshot_model st.backend.id (applyThresholds p (some t)), true) := by
  obtain ⟨w, ws, hw⟩ := List.exists_cons_of_ne_nil h1
  rw [ingest_ok_snd]
  simp [hw, h0, pyOrNoneList, pyTruthyList]

lemma ingest_active_after (p : MetricsPayload) (t : WarnThresholds)
    (r now : ℤ) (st : IngestState)
    (h1 : detect_warnings p t ≠ []) :
    pyTruthyStr
      (ingest_backend_metrics (.ok (some p)) (some t) r now st).1.backend.last_warning =
      true := by
  obtain ⟨w, ws, hw⟩ := List.exists_cons_of_ne_nil h1
  have hwne : w.isEmpty = false :=
    mem_detect_ne_empty (p := p) (t := t) (by rw [hw]; exact List.mem_cons_self w ws)
  rw [ingest_ok_last_warning, hw]
  rw [if_pos (show pyTruthyList (pyOrNoneList (w :: ws)) = true from rfl)]
  show (!(pyJoin "; " (w :: ws)).isEmpty) = true
  rw [pyJoin_isEmpty_false "; " w ws hwne]
  rfl

lemma ingest_inactive_after (p : MetricsPayload) (t : WarnThresholds)
    (r now : ℤ) (st : IngestState)
    (h : detect_warnings p t = []) :
    pyTruthyStr
      (ingest_backend_metrics (.ok (some p)) (some t) r now st).1.backend.last_warning =
      false := by
  rw [ingest_ok_last_warning, h]
  rfl

/-- C1: notification is edge-triggered.  While a warning is already active
(`last_warning` truthy) an ingestion never notifies; an ingestion whose
evaluated warnings are empty never notifies; an ingestion that computes
warnings while none were active notifies (exactly once, being the single
collaborator call of that run); and over four consecutive ingestions —
warnings, warnings, none, warnings — starting from a clear state, exactly
the first and the fourth notify: staying in the warning state suppresses
re-notification and a return to normal clears the suppression. -/
theorem spec_C1 (st : IngestState) (t : WarnThresholds) (r n1 n2 n3 n4 : ℤ)
    (p1 p2 p3 p4 : MetricsPayload)
    (h0 : pyTruthyStr st.backend.last_warning = false)
    (h1 : detect_warnings p1 t ≠ []) (h2 : detect_warnings p2 t ≠ [])
    (h3 : detect_warnings p3 t = []) (h4 : detect_warnings p4 t ≠ []) :
    (∀ st' : IngestState, ∀ p : MetricsPayload, ∀ n : ℤ,
      pyTruthyStr st'.backend.last_warning = true →
      (ingest_backend_metrics (.ok (some p)) (some t) r n st').2 =
        .ok (build_snapshot_model st'.backend.id (applyThresholds p (some t)), false)) ∧
    (∀ st' : IngestState, ∀ p : MetricsPayload, ∀ n : ℤ,
      detect_warnings p t = [] →
      (ingest_backend_metrics (.ok (some p)) (some t) r n st').2 =
        .ok (build_snapshot_model st'.backend.id (applyThresholds p (some t)), false)) ∧
    (∀ st' : IngestState, ∀ p : MetricsPayload, ∀ n : ℤ,
      pyTruthyStr st'.backend.last_warning = false → detect_warnings p t ≠ [] →
      (ingest_backend_metrics (.ok (some p)) (some t) r n st').2 =
        .ok (build_snapshot_model st'.backend.id (applyThresholds p (some t)), true)) ∧
    (∃ st1 st2 st3 st4 s1 s2 s3 s4,
      ingest_backend_metrics (.ok (some p1)) (some t) r n1 st = (st1, .ok (s1, true)) ∧
      ingest_backend_metrics (.ok (some p2)) (some t) r n2 st1 = (st2, .ok (s2, false)) ∧
      ingest_backend_metrics (.ok (some p3)) (some t) r n3 st2 = (st3, .ok (s3, false)) ∧
      ingest_backend_metrics (.ok (some p4)) (some t) r n4 st3 = (st4, .ok (s4, true))) := by
  refine ⟨fun st' p n h => ingest_notify_already_active p t r n st' h,
          fun st' p n h => ingest_notify_no_warnings p t r n st' h,
          fun st' p n ha hb => ingest_notify_fire p t r n st' ha hb, ?_⟩
  have e1 := pair_eq_snd _ (ingest_notify_fire p1 t r n1 st h0 h1)
  have e2 := pair_eq_snd _ (ingest_notify_already_active p2 t r n2
    (ingest_backend_metrics (.ok (some p1)) (some t) r n1 st).1
    (ingest_active_after p1 t r n1 st h1))
  have e3 := pair_eq_snd _ (ingest_notify_no_warnings p3 t r n3
    (ingest_backend_metrics (.ok (some p2)) (some t) r n2
      (ingest_backend_metrics (.ok (some p1)) (some t) r n1 st).1).1 h3)
  have e4 := pair_eq_snd _ (ingest_notify_fire p4 t r n4
    (ingest_backend_metrics (.ok (some p3)) (some t) r n3
      (ingest_backend_metrics (.ok (some p2)) (some t) r n2
        (ingest_backend_metrics (.ok (some p1)) (some t) r n1 st).1).1).1
    (ingest_inactive_after p3 t r n3
      (ingest_backend_metrics (.ok (some p2)) (some t) r n2
        (ingest_backend_metrics (.ok (some p1)) (some t) r n1 st).1).1 h3) h4)
  exact ⟨_, _, _, _, _, _, _, _, e1, e2, e3, e4⟩

/-- Witness for C1: a concrete backend with no active warning ingesting a
95 °C payload against default thresholds notifies. -/
theorem spec_C1_witness :
    (ingest_backend_metrics
        (.ok (some { reported_at := 10, cpu_temperature_c := some 95 }))
        (some ⟨none, none, none, none⟩) 100 10
        ⟨⟨1, 30, true, none, none⟩, []⟩).2 =
      .ok (build_snapshot_model 1
            (applyThresholds { reported_at := 10, cpu_temperature_c := some 95 }
              (some ⟨none, none, none, none⟩)), true) := by
  exact (spec_C1 ⟨⟨1, 30, true, none, none⟩, []⟩ ⟨none, none, none, none⟩ 100 10 10 10 10
      { reported_at := 10, cpu_temperature_c := some 95 }
      { reported_at := 10, cpu_temperature_c := some 95 }
      { reported_at := 10 }
      { reported_at := 10, cpu_temperature_c := some 95 }
      (by decide) (by decide) (by decide) (by decide) (by decide)).2.2.1
    ⟨⟨1, 30, true, none, none⟩, []⟩
    { reported_at := 10, cpu_temperature_c := some 95 } 10 (by decide) (by decide)

end Virgilio
